import Mathlib

/-!
Verification of the Okonf reconciliation core against its specification.

The embedding models, in order:
* `okonf/facts/abstract.py`: the nested boolean result values (`all_true`,
  `any_true`, `FactCheck`, `FactResult`) and the engine combinators
  `Fact.check` / `Fact.apply`;
* `okonf/facts/apt.py`: the apt state units (`AptPresent`, `AptAbsent`,
  `AptUpdated`);
* `okonf/modules/files.py`: the file modules (`FilePresent`, `FileHash`,
  `FileCopy`, `DirectoryPresent`) and the directory synchronizer
  `DirectoryCopy` with its `submodules` plan builder.

Python values of type `Union[bool, list]` (the payload accepted by
`FactCheck`/`FactResult`) are modelled by the nested inductive `NB`:
a leaf boolean or a sequence of such values.  Host interaction is modelled
by an oracle `Host` mapping a command (plus its `check` / `no_such_file`
flags) to either output text or a distinguishable error, and the commands a
routine issues are collected as an explicit trace of `HostOp`s.
-/

namespace Okonf

/-- A nested boolean structure: a Python `bool` or a (possibly nested)
`list` of such values, the payload shape accepted by `FactCheck` and
`FactResult` in `okonf/facts/abstract.py`. -/
inductive NB where
  | b : Bool → NB
  | seq : List NB → NB

/-- `all_true` from `okonf/facts/abstract.py` (lines 12-22): recursive
version of `all()`; descends into nested sequences, returns `false` on the
first falsy leaf or failing sub-sequence, `true` on exhaustion. -/
def all_true : List NB → Bool
  | [] => true
  | NB.seq l :: rest => all_true l && all_true rest
  | NB.b x :: rest => x && all_true rest

/-- `any_true` from `okonf/facts/abstract.py` (lines 25-33), translated
exactly as written: for a nested element `l` the source reads
`if not any_true(element): return True`, i.e. it returns `true` when the
sub-sequence evaluates to `false`, and only otherwise continues with the
rest; a leaf returns `true` when truthy. -/
def any_true : List NB → Bool
  | [] => false
  | NB.seq l :: rest => if !(any_true l) then true else any_true rest
  | NB.b x :: rest => if x then true else any_true rest

/-- The leaves of a nested boolean structure, in depth-first order. -/
def leavesList : List NB → List Bool
  | [] => []
  | NB.seq l :: rest => leavesList l ++ leavesList rest
  | NB.b x :: rest => x :: leavesList rest

/-- Python structural equality on `Union[bool, list]` values: two booleans
compare by value, two lists elementwise, and a boolean never equals a
list. -/
def nbBeq : NB → NB → Bool
  | .b x, .b y => x == y
  | .seq [], .seq [] => true
  | .seq (x :: xs), .seq (y :: ys) => nbBeq x y && nbBeq (.seq xs) (.seq ys)
  | _, _ => false

/-- `FactCheck` from `okonf/facts/abstract.py`: a fact together with the
raw result of its `enquire` (a boolean or a nested structure). -/
structure FactCheck (F : Type) where
  fact : F
  result : NB

/-- `FactCheck.__bool__`: a boolean payload is its own value; a nested
payload reduces via `all_true` (AND-reduction). -/
def FactCheck.toBool {F : Type} (c : FactCheck F) : Bool :=
  match c.result with
  | .b x => x
  | .seq l => all_true l

/-- `FactCheck.__eq__`: comparison against a raw value compares the stored
payload `self.result` directly. -/
def FactCheck.beq {F : Type} (c : FactCheck F) (other : NB) : Bool :=
  nbBeq c.result other

/-- `FactResult` from `okonf/facts/abstract.py`: a fact together with the
raw result of its application. -/
structure FactResult (F : Type) where
  fact : F
  result : NB

/-- `FactResult.__bool__`: a boolean payload is its own value; a nested
payload reduces via `any_true` (as coded). -/
def FactResult.toBool {F : Type} (r : FactResult F) : Bool :=
  match r.result with
  | .b x => x
  | .seq l => any_true l

/-- `FactResult.__eq__`: comparison against a raw value compares the stored
payload `self.result` directly. -/
def FactResult.beq {F : Type} (r : FactResult F) (other : NB) : Bool :=
  nbBeq r.result other

/-- A state unit (`Fact` in `okonf/facts/abstract.py`): `enquire` inspects
the host state and reports the raw status; `enforce` mutates the host state
and reports the raw change result.  Host state is abstract (`S`); mutation
is modelled by explicit state passing. -/
structure Fact (S : Type) where
  enquire : S → NB
  enforce : S → S × NB

/-- `Fact.check`: wraps the raw `enquire` result in a `FactCheck`. -/
def Fact.check {S : Type} (f : Fact S) (s : S) : FactCheck (Fact S) :=
  ⟨f, f.enquire s⟩

/-- `Fact.apply` (abstract.py lines 102-109): if `check` is falsy, run
`enforce` and wrap its result; otherwise wrap `False` without touching the
host. -/
def Fact.apply {S : Type} (f : Fact S) (s : S) : S × FactResult (Fact S) :=
  if !(Fact.check f s).toBool then
    ((f.enforce s).1, ⟨f, (f.enforce s).2⟩)
  else
    (s, ⟨f, NB.b false⟩)

/-- `AptUpdated` from `okonf/facts/apt.py` (lines 64-74): its `enquire`
always returns `False`, and its `enforce` runs `sudo apt-get update` and
returns `True`.  Host state is the list of commands executed so far. -/
def AptUpdated : Fact (List String) where
  enquire := fun _ => NB.b false
  enforce := fun s => (s ++ ["sudo apt-get update"], NB.b true)

/-- A concrete unit in the style of `FilePresent` on a command-log host:
present as soon as the file has been touched; `enforce` issues the touch. -/
def TouchUnit : Fact (List String) where
  enquire := fun s => NB.b (s.contains "touch /x")
  enforce := fun s => (s ++ ["touch /x"], NB.b true)

/-- `AptPresent` from `okonf/facts/apt.py` (lines 21-43): parameters of the
unit (package name and sudo flag, the latter defaulting to `True`). -/
structure AptPresent where
  name : String
  useSudo : Bool

/-- The command issued by `AptPresent.enforce` (apt.py lines 34-39): with
`sudo` set the install command is prefixed by `sudo`, otherwise not. -/
def AptPresent.enforceCommand (u : AptPresent) : String :=
  if u.useSudo then "sudo apt-get install -y " ++ u.name
  else "apt-get install -y " ++ u.name

/-- `AptAbsent` from `okonf/facts/apt.py` (lines 46-61): parameters of the
unit (package name, purge flag, sudo flag). -/
structure AptAbsent where
  name : String
  purge : Bool
  useSudo : Bool

/-- The command issued by `AptAbsent.enforce` (apt.py lines 55-61),
translated exactly as written: with `sudo` set the remove command is NOT
prefixed by `sudo`; without `sudo` the command IS prefixed by `sudo`.
The `purge` flag inserts `--purge` via `"apt-get remove {} -y {}"`. -/
def AptAbsent.enforceCommand (u : AptAbsent) : String :=
  let purge := if u.purge then "--purge" else ""
  if u.useSudo then "apt-get remove " ++ (purge ++ (" -y " ++ u.name))
  else "sudo apt-get remove " ++ (purge ++ (" -y " ++ u.name))

/-- Whether a command string carries a `sudo` prefix (its first five
characters are `sudo` followed by a space). -/
def startsWithSudo (c : String) : Bool :=
  c.toList.take 5 == ['s', 'u', 'd', 'o', ' ']

/-- Errors surfaced by host interaction and by the modules of
`okonf/modules/files.py`: `noSuchFile` models `NoSuchFileError` from
`okonf.connectors.exceptions`; `processError` any other failed command;
`valueError` the tuple-unpacking failure in `info_files_hash`;
`assertError` a failed path-prefix assertion; `notImplemented` the
`raise NotImplemented` in `FileHash.apply`. -/
inductive Err where
  | noSuchFile
  | processError
  | valueError
  | assertError
  | notImplemented
deriving DecidableEq

/-- The execution capability: `run command check no_such_file` returns the
captured output or a distinguishable error.  The two flags mirror the
keyword arguments `check=` and `no_such_file=` passed by the modules. -/
structure Host where
  run : String → Bool → Bool → Except Err String

/-- One operation issued against the execution capability: a `run` of a
command, or a `put` file transfer. -/
inductive HostOp where
  | run (command : String)
  | put (remote_path : String) (local_path : String)

/-- Classification of a host operation as read-oriented: a `run` whose
command is `ls`, `sha256sum` or `find`; a `put` is never read-only. -/
def HostOp.isReadOnly : HostOp → Bool
  | .run c =>
      c.toList.take 3 == ['l', 's', ' '] ||
      c.toList.take 10 == ['s', 'h', 'a', '2', '5', '6', 's', 'u', 'm', ' '] ||
      c.toList.take 5 == ['f', 'i', 'n', 'd', ' ']
  | .put _ _ => false

/-- Classification of a host operation as write-class: any `put`, or a
`run` of `touch`, `rm`, `mkdir` or `rmdir`. -/
def HostOp.isWriteOp : HostOp → Bool
  | .put _ _ => true
  | .run c =>
      c.toList.take 6 == ['t', 'o', 'u', 'c', 'h', ' '] ||
      c.toList.take 3 == ['r', 'm', ' '] ||
      c.toList.take 6 == ['m', 'k', 'd', 'i', 'r', ' '] ||
      c.toList.take 6 == ['r', 'm', 'd', 'i', 'r', ' ']

/-- `FilePresent.check` (files.py lines 19-21): runs `ls -d {path}` with
`check=False` and reports whether the output is non-empty.  Returned with
the trace of operations issued. -/
def FilePresent.check (remote_path : String) (host : Host) :
    Except Err Bool × List HostOp :=
  let command := "ls -d " ++ remote_path
  ((host.run command false false).map (fun out => out != ""),
    [HostOp.run command])

/-- `FileHash.get_hash` (files.py lines 46-52): runs `sha256sum {path}`
with `no_such_file=True`; a `NoSuchFileError` is caught and becomes the
Python `False` (modelled `none`); otherwise the first whitespace-separated
token of the output (`output.split(' ', 1)[0]`) is the hash. -/
def FileHash.get_hash (remote_path : String) (host : Host) :
    Except Err (Option String) × List HostOp :=
  let command := "sha256sum " ++ remote_path
  (match host.run command true true with
    | .error .noSuchFile => .ok none
    | .error e => .error e
    | .ok output => .ok (some (output.takeWhile (fun c => c ≠ ' '))),
    [HostOp.run command])

/-- `FileHash.check` (files.py lines 54-56): the remote hash (or the
Python `False` for a missing file) compared against the expected hash. -/
def FileHash.check (remote_path : String) (hash : String) (host : Host) :
    Except Err Bool × List HostOp :=
  let gh := FileHash.get_hash remote_path host
  (gh.1.map (fun remote_hash => remote_hash == some hash), gh.2)

/-- `FileHash.apply` (files.py lines 58-59): `raise NotImplemented` — the
unit always fails without issuing any operation. -/
def FileHash.apply (remote_path : String) (hash : String) (host : Host) :
    Except Err Bool × List HostOp :=
  (.error .notImplemented, [])

/-- Python truthiness of the `remote_hash` parameter: `None` and the empty
string are falsy. -/
def pyTruthy : Option String → Bool
  | none => false
  | some s => s != ""

/-- `FileCopy.check` (files.py lines 76-81): hash the local file (via the
`get_local_file_hash` helper of `okonf/utils.py`, a local-filesystem
fingerprint modelled here as the oracle `local_hash_fn`); if a truthy
`remote_hash` was supplied at construction, compare locally without any
host operation, otherwise delegate to `FileHash.check` on the remote. -/
def FileCopy.check (remote_path : String) (local_path : String)
    (remote_hash : Option String) (local_hash_fn : String → String)
    (host : Host) : Except Err Bool × List HostOp :=
  let local_hash := local_hash_fn local_path
  if pyTruthy remote_hash then
    (.ok (some local_hash == remote_hash), [])
  else
    FileHash.check remote_path local_hash host

/-- `DirectoryPresent.check` (files.py lines 113-115): runs
`ls -d {path}` with `check=False` and reports non-empty output. -/
def DirectoryPresent.check (remote_path : String) (host : Host) :
    Except Err Bool × List HostOp :=
  let command := "ls -d " ++ remote_path
  ((host.run command false false).map (fun out => out != ""),
    [HostOp.run command])

/-- Python whitespace characters relevant to `str.strip()`/`str.split()`. -/
def isPySpace (c : Char) : Bool :=
  c = ' ' || c = '\t' || c = '\n' || c = '\r' || c = '\x0b' || c = '\x0c'

/-- Python `str.strip()`: drop whitespace at both ends. -/
def pyStripWs (s : String) : String :=
  String.mk (((s.toList.dropWhile isPySpace).reverse.dropWhile
    isPySpace).reverse)

/-- Python `str.strip('/')`: drop slashes at both ends. -/
def pyStripSlash (s : String) : String :=
  String.mk (((s.toList.dropWhile (fun c => c = '/')).reverse.dropWhile
    (fun c => c = '/')).reverse)

/-- Split a character list at every occurrence of `sep` (Python
`str.split(sep)` for a one-character separator: empty fields are kept). -/
def splitCharAt (sep : Char) : List Char → List (List Char)
  | [] => [[]]
  | c :: rest =>
      match splitCharAt sep rest with
      | [] => []
      | cur :: done =>
          if c = sep then [] :: cur :: done else (c :: cur) :: done

/-- Python `str.split('\n')`. -/
def pySplitNl (s : String) : List String :=
  (splitCharAt '\n' s.toList).map String.mk

/-- Group maximal runs of non-whitespace characters (Python `str.split()`
with no argument: runs of whitespace separate, no empty fields). -/
def splitWsChars : List Char → List (List Char)
  | [] => []
  | [c] => if isPySpace c then [] else [[c]]
  | c :: d :: rest =>
      let r := splitWsChars (d :: rest)
      if isPySpace c then r
      else if isPySpace d then [c] :: r
      else
        match r with
        | t :: ts => (c :: t) :: ts
        | [] => [[c]]

/-- Python `str.split()` with no argument. -/
def pySplitWs (s : String) : List String :=
  (splitWsChars s.toList).map String.mk

/-- Python `str.startswith`. -/
def pyStartsWith (s : String) (pre : String) : Bool :=
  pre.toList.isPrefixOf s.toList

/-- Python string slicing `s[n:]` by character count. -/
def pyDropChars (s : String) (n : Nat) : String :=
  String.mk (s.toList.drop n)

/-- Number of characters of a string (Python `len`). -/
def pyLen (s : String) : Nat :=
  s.toList.length

/-- `os.path.join(a, b)` for POSIX paths, one extra component: an absolute
`b` replaces `a`; otherwise `b` is attached with a single separating
slash. -/
def pyJoin (a : String) (b : String) : String :=
  if pyStartsWith b "/" then b
  else if a == "" || "/".toList.isSuffixOf a.toList then a ++ b
  else a ++ "/" ++ b

/-- Python `dict` membership-ordered insertion: assigning to an existing
key overwrites in place, a new key is appended. -/
def dictInsert (d : List (String × String)) (k : String) (v : String) :
    List (String × String) :=
  if d.any (fun kv => kv.1 == k) then
    d.map (fun kv => if kv.1 == k then (k, v) else kv)
  else d ++ [(k, v)]

/-- Python `dict.get`: the value at a key, or `None`. -/
def dictGet (d : List (String × String)) (k : String) : Option String :=
  match d.find? (fun kv => kv.1 == k) with
  | some kv => some kv.2
  | none => none

/-- The state units a `DirectoryCopy` plan is assembled from (the
parameters each submodule of files.py is constructed with). -/
inductive Module where
  | FilePresent (remote_path : String)
  | FileAbsent (remote_path : String)
  | FileCopy (remote_path : String) (local_path : String)
      (remote_hash : Option String)
  | DirectoryPresent (remote_path : String)
  | DirectoryAbsent (remote_path : String)
deriving DecidableEq

/-- `DirectoryCopy` from `okonf/modules/files.py` (lines 133-138):
its construction parameters. -/
structure DirectoryCopy where
  remote_path : String
  local_path : String

/-- The batched fingerprinting command of `info_files_hash`
(files.py line 142). -/
def DirectoryCopy.files_command (m : DirectoryCopy) : String :=
  "find " ++ m.remote_path ++ " -type f -exec sha256sum \x7b\x7d +"

/-- The directory enumeration command of `info_dirs_present`
(files.py line 156). -/
def DirectoryCopy.dirs_command (m : DirectoryCopy) : String :=
  "find " ++ m.remote_path ++ " -type d"

/-- The parsing loop of `info_files_hash` (files.py lines 144-150): skip
empty lines; each other line must split into exactly a hash and a path
(`hash, path = line.split()`, otherwise a `ValueError`), stored into the
mapping keyed by path. -/
def parseHashLines (acc : List (String × String)) :
    List String → Except Err (List (String × String))
  | [] => .ok acc
  | line :: rest =>
      if line == "" then parseHashLines acc rest
      else
        match pySplitWs line with
        | [hash, path] => parseHashLines (dictInsert acc path hash) rest
        | _ => .error .valueError

/-- `DirectoryCopy.info_files_hash` (files.py lines 140-152): run the
batched fingerprint command with `no_such_file=True`; a `NoSuchFileError`
yields the empty mapping; otherwise parse `output.strip().split('\n')`. -/
def DirectoryCopy.info_files_hash (m : DirectoryCopy) (host : Host) :
    Except Err (List (String × String)) :=
  match host.run m.files_command true true with
  | .error .noSuchFile => .ok []
  | .error e => .error e
  | .ok output => parseHashLines [] (pySplitNl (pyStripWs output))

/-- `DirectoryCopy.info_dirs_present` (files.py lines 154-161): run the
directory enumeration with `no_such_file=True`; a `NoSuchFileError` yields
the empty list; otherwise `output.strip().split('\n')`. -/
def DirectoryCopy.info_dirs_present (m : DirectoryCopy) (host : Host) :
    Except Err (List String) :=
  match host.run m.dirs_command true true with
  | .error .noSuchFile => .ok []
  | .error e => .error e
  | .ok output => .ok (pySplitNl (pyStripWs output))

/-- The path arithmetic of `_get_remote_path` without its assertion:
`join(remote, path[len(local):].strip('/'))`. -/
def DirectoryCopy.remoteOfLocal (m : DirectoryCopy) (path : String) :
    String :=
  pyJoin m.remote_path (pyStripSlash (pyDropChars path (pyLen m.local_path)))

/-- `DirectoryCopy._get_remote_path` (files.py lines 163-166): asserts the
local-root prefix, then maps into the remote tree. -/
def DirectoryCopy.get_remote_path (m : DirectoryCopy) (path : String) :
    Except Err String :=
  if pyStartsWith path m.local_path then .ok (m.remoteOfLocal path)
  else .error .assertError

/-- The path arithmetic of `_get_local_path` without its assertion:
`join(local, path[len(remote):].strip('/'))`. -/
def DirectoryCopy.localOfRemote (m : DirectoryCopy) (path : String) :
    String :=
  pyJoin m.local_path (pyStripSlash (pyDropChars path (pyLen m.remote_path)))

/-- `DirectoryCopy._get_local_path` (files.py lines 168-171): asserts the
remote-root prefix, then maps into the local tree. -/
def DirectoryCopy.get_local_path (m : DirectoryCopy) (path : String) :
    Except Err String :=
  if pyStartsWith path m.remote_path then .ok (m.localOfRemote path)
  else .error .assertError

/-- The local filesystem as seen by `submodules`: the `os.walk` result
over the local root (root, directory names, file names, in walk order) and
the `os.path.isfile` / `os.path.isdir` predicates. -/
structure LocalFS where
  walk : List (String × List String × List String)
  isfile : String → Bool
  isdir : String → Bool

/-- The `os.walk` loop of `submodules` (files.py lines 185-199): for each
walked root, a `DirectoryPresent` per subdirectory name and a `FileCopy`
per file name, the copy pre-seeded with the known remote fingerprint via
`existing_files.get(remote_path)`; accumulated in walk order. -/
def DirectoryCopy.walkUnits (m : DirectoryCopy)
    (existing_files : List (String × String)) :
    List (String × List String × List String) →
      Except Err (List Module × List Module)
  | [] => .ok ([], [])
  | (root, dirs, files) :: rest =>
      match m.get_remote_path root with
      | .error e => .error e
      | .ok remote_root =>
          match DirectoryCopy.walkUnits m existing_files rest with
          | .error e => .error e
          | .ok (dcs, fcs) =>
              .ok
                (dirs.map (fun dirname =>
                    Module.DirectoryPresent (pyJoin remote_root dirname)) ++
                  dcs,
                  files.map (fun filename =>
                    Module.FileCopy (pyJoin remote_root filename)
                      (pyJoin root filename)
                      (dictGet existing_files
                        (pyJoin remote_root filename))) ++ fcs)

/-- The file-removal loop of `submodules` (files.py lines 201-204): a
`FileAbsent` for every remote file path whose mapped local path is not a
file. -/
def DirectoryCopy.removalFileUnits (m : DirectoryCopy)
    (isfile : String → Bool) :
    List (String × String) → Except Err (List Module)
  | [] => .ok []
  | (filepath, _) :: rest =>
      match m.get_local_path filepath with
      | .error e => .error e
      | .ok lp =>
          match DirectoryCopy.removalFileUnits m isfile rest with
          | .error e => .error e
          | .ok tail =>
              .ok (if isfile lp then tail else Module.FileAbsent filepath :: tail)

/-- The directory-removal loop of `submodules` (files.py lines 206-210): a
`DirectoryAbsent` for every remote directory path whose mapped local path
is not a directory. -/
def DirectoryCopy.removalDirUnits (m : DirectoryCopy)
    (isdir : String → Bool) :
    List String → Except Err (List Module)
  | [] => .ok []
  | dirname :: rest =>
      match m.get_local_path dirname with
      | .error e => .error e
      | .ok lp =>
          match DirectoryCopy.removalDirUnits m isdir rest with
          | .error e => .error e
          | .ok tail =>
              .ok (if isdir lp then tail else Module.DirectoryAbsent dirname :: tail)

/-- `DirectoryCopy.submodules` (files.py lines 173-222): enumerate remote
files, walk the local tree, compute the removal sets, and assemble the two
two-stage plans `[dirs_to_create, files_to_copy]` and
`[files_to_remove, dirs_to_remove]`. -/
def DirectoryCopy.submodules (m : DirectoryCopy) (host : Host)
    (fs : LocalFS) :
    Except Err (List (List Module) × List (List Module)) :=
  match m.info_files_hash host with
  | .error e => .error e
  | .ok existing_files =>
      match DirectoryCopy.walkUnits m existing_files fs.walk with
      | .error e => .error e
      | .ok (dirs_to_create, files_to_copy) =>
          match DirectoryCopy.removalFileUnits m fs.isfile existing_files with
          | .error e => .error e
          | .ok files_to_remove =>
              match m.info_dirs_present host with
              | .error e => .error e
              | .ok existing_dirs =>
                  match DirectoryCopy.removalDirUnits m fs.isdir
                      existing_dirs with
                  | .error e => .error e
                  | .ok dirs_to_remove =>
                      .ok ([dirs_to_create, files_to_copy],
                        [files_to_remove, dirs_to_remove])

/-- Modelled from the spec (step 3 of the DirectorySynchronizer algorithm,
for the refinement statement of the creation plan): a directory-present
unit for every local directory, at its corresponding remote path. -/
def specDirsToCreate (m : DirectoryCopy)
    (walk : List (String × List String × List String)) : List Module :=
  (walk.map (fun e =>
    e.2.1.map (fun dirname =>
      Module.DirectoryPresent (pyJoin (m.remoteOfLocal e.1) dirname)))).flatten

/-- Modelled from the spec (step 3): a file-copy unit for every local
file, at its corresponding remote path, pre-seeded with the known remote
fingerprint. -/
def specFilesToCopy (m : DirectoryCopy)
    (existing_files : List (String × String))
    (walk : List (String × List String × List String)) : List Module :=
  (walk.map (fun e =>
    e.2.2.map (fun filename =>
      Module.FileCopy (pyJoin (m.remoteOfLocal e.1) filename)
        (pyJoin e.1 filename)
        (dictGet existing_files
          (pyJoin (m.remoteOfLocal e.1) filename))))).flatten

/-- Modelled from the spec (step 4): a file-absent unit for every remote
file with no corresponding local file. -/
def specFilesToRemove (m : DirectoryCopy) (isfile : String → Bool)
    (existing_files : List (String × String)) : List Module :=
  (existing_files.filter (fun kv => !isfile (m.localOfRemote kv.1))).map
    (fun kv => Module.FileAbsent kv.1)

/-- Modelled from the spec (step 4): a directory-absent unit for every
remote directory with no corresponding local directory. -/
def specDirsToRemove (m : DirectoryCopy) (isdir : String → Bool)
    (existing_dirs : List String) : List Module :=
  (existing_dirs.filter (fun d => !isdir (m.localOfRemote d))).map
    Module.DirectoryAbsent

end Okonf

namespace Okonf

/-- Helper: `all_true` is the AND-reduction over the depth-first leaves. -/
theorem all_true_eq_leaves (xs : List NB) :
    all_true xs = true ↔ ∀ x ∈ leavesList xs, x = true := by
  induction xs using all_true.induct with
  | case1 => simp [all_true, leavesList]
  | case2 l rest ih1 ih2 =>
    simp [all_true, leavesList, ih1, ih2, or_imp, forall_and]
  | case3 x rest ih =>
    simp [all_true, leavesList, ih]

/-- Claim C4: `all_true` returns true iff every leaf of the (possibly
nested) structure is true; `all_true([])` is true,
`all_true([T,[T,T]])` is true, `all_true([T,[T,F]])` is false; and
`all_true` is the boolean value of a `FactCheck` whose payload is a nested
structure. -/
theorem C4_all_true_and_reduction :
    (∀ xs : List NB, all_true xs = true ↔ ∀ x ∈ leavesList xs, x = true) ∧
    all_true [] = true ∧
    all_true [NB.b true, NB.seq [NB.b true, NB.b true]] = true ∧
    all_true [NB.b true, NB.seq [NB.b true, NB.b false]] = false ∧
    (∀ (F : Type) (f : F) (xs : List NB),
      FactCheck.toBool ⟨f, NB.seq xs⟩ = all_true xs) := by
  refine ⟨all_true_eq_leaves, by simp [all_true], by simp [all_true],
    by simp [all_true], ?_⟩
  intro F f xs
  rfl

/-- Claim C1: the source `any_true` is NOT the OR-reduction over leaves.
On `[F,[F,T]]` (which has a true leaf, so the specified OR-reduction is
true) the code returns `false`; on `[F,[F,F]]` (no true leaf, specified
value false) the code returns `true`.  The nested-element branch of the
source reads `if not any_true(element): return True`, inverting the
intended recursion. -/
theorem C1_any_true_nested_inverted :
    any_true [NB.b false, NB.seq [NB.b false, NB.b true]] = false ∧
    true ∈ leavesList [NB.b false, NB.seq [NB.b false, NB.b true]] ∧
    any_true [NB.b false, NB.seq [NB.b false, NB.b false]] = true ∧
    true ∉ leavesList [NB.b false, NB.seq [NB.b false, NB.b false]] := by
  refine ⟨by simp [any_true], by simp [leavesList], by simp [any_true],
    by simp [leavesList]⟩

/-- Claim C8: equality of a `FactCheck`/`FactResult` against a raw value
compares the stored payload, not the reduced boolean: an outcome wrapping
`[true]` equals `[true]` but not `true`, although both payloads reduce to
`true`. -/
theorem C8_eq_compares_payload :
    (∀ (F : Type) (f : F) (p v : NB), FactCheck.beq ⟨f, p⟩ v = nbBeq p v) ∧
    (∀ (F : Type) (f : F) (p v : NB), FactResult.beq ⟨f, p⟩ v = nbBeq p v) ∧
    (∀ (F : Type) (f : F),
      FactCheck.beq ⟨f, NB.seq [NB.b true]⟩ (NB.seq [NB.b true]) = true ∧
      FactCheck.beq ⟨f, NB.seq [NB.b true]⟩ (NB.b true) = false ∧
      FactCheck.toBool ⟨f, NB.seq [NB.b true]⟩ = true ∧
      FactCheck.toBool ⟨f, NB.b true⟩ = true) ∧
    (∀ (F : Type) (f : F),
      FactResult.beq ⟨f, NB.seq [NB.b true]⟩ (NB.seq [NB.b true]) = true ∧
      FactResult.beq ⟨f, NB.seq [NB.b true]⟩ (NB.b true) = false ∧
      FactResult.toBool ⟨f, NB.seq [NB.b true]⟩ = true ∧
      FactResult.toBool ⟨f, NB.b true⟩ = true) := by
  refine ⟨fun F f p v => rfl, fun F f p v => rfl, fun F f => ?_, fun F f => ?_⟩
  · exact ⟨by simp [FactCheck.beq, nbBeq], by simp [FactCheck.beq, nbBeq],
      by simp [FactCheck.toBool, all_true], rfl⟩
  · exact ⟨by simp [FactResult.beq, nbBeq], by simp [FactResult.beq, nbBeq],
      by simp [FactResult.toBool, any_true], rfl⟩

/-- Claim C3: `apply` invokes `enforce` iff `check` evaluates to false.
When `check` is false, `apply` is exactly the `enforce` transition (state
and result); when `check` is true, `apply` returns the unchanged state and
a result wrapping `false`, independently of the unit's `enforce` (so
`enforce` is never invoked by the engine). -/
theorem C3_check_gates_enforce (S : Type) (f : Fact S) (s : S) :
    ((Fact.check f s).toBool = false →
      Fact.apply f s = ((f.enforce s).1, ⟨f, (f.enforce s).2⟩)) ∧
    ((Fact.check f s).toBool = true →
      ∀ enf : S → S × NB,
        Fact.apply ⟨f.enquire, enf⟩ s = (s, ⟨⟨f.enquire, enf⟩, NB.b false⟩)) := by
  constructor
  · intro h
    simp [Fact.apply, h]
  · intro h enf
    have h2 : (Fact.check ⟨f.enquire, enf⟩ s).toBool = true := h
    simp [Fact.apply, h2]

/-- Witness for C3 on the concrete `TouchUnit`: at the empty host the check
is false and `apply` performs the enforce transition; at a host where the
file was touched the check is true and `apply` leaves the state alone and
wraps `false`, whatever `enforce` is. -/
theorem C3_check_gates_enforce_witness :
    Fact.apply TouchUnit [] =
      ((TouchUnit.enforce []).1, ⟨TouchUnit, (TouchUnit.enforce []).2⟩) ∧
    Fact.apply ⟨TouchUnit.enquire, TouchUnit.enforce⟩ ["touch /x"] =
      (["touch /x"],
        ⟨⟨TouchUnit.enquire, TouchUnit.enforce⟩, NB.b false⟩) :=
  ⟨(C3_check_gates_enforce (List String) TouchUnit []).1 (by decide),
    (C3_check_gates_enforce (List String) TouchUnit ["touch /x"]).2 (by decide)
      TouchUnit.enforce⟩

/-- Counterexample for C5: `AptUpdated` is a unit whose second successive
`apply` still reports a change.  Its `enquire` always returns `False`, so
the second `apply` runs `enforce` again and the resulting `ApplyOutcome`
evaluates to `true`, not `false`. -/
theorem C5_counterexample_apt_updated :
    (Fact.apply AptUpdated (Fact.apply AptUpdated []).1).2.toBool = true := by
  decide

/-- Claim C5 (amended): for every unit whose `check` evaluates to true on
the state reached by the first `apply`, the second successive `apply`
yields an `ApplyOutcome` that evaluates to false. -/
theorem C5_second_apply_unchanged (S : Type) (f : Fact S) (s : S)
    (h : (Fact.check f (Fact.apply f s).1).toBool = true) :
    (Fact.apply f (Fact.apply f s).1).2.toBool = false := by
  generalize (Fact.apply f s).1 = s1 at h ⊢
  simp [Fact.apply, h, FactResult.toBool]

/-- Witness for C5 (amended) on the concrete `TouchUnit`: after the first
`apply` the check holds, and the second `apply` reports unchanged. -/
theorem C5_second_apply_unchanged_witness :
    (Fact.check TouchUnit (Fact.apply TouchUnit []).1).toBool = true ∧
    (Fact.apply TouchUnit (Fact.apply TouchUnit []).1).2.toBool = false :=
  ⟨by decide, C5_second_apply_unchanged (List String) TouchUnit [] (by decide)⟩

/-- Helper: the five-character take that `startsWithSudo` inspects is
unaffected by appending to a string of length at least five. -/
theorem startsWithSudo_append (a s : String) (h : 5 ≤ a.toList.length) :
    startsWithSudo (a ++ s) = startsWithSudo a := by
  have hd : (a ++ s).toList = a.toList ++ s.toList := String.data_append a s
  simp only [startsWithSudo, hd, List.take_append_eq_append_take,
    Nat.sub_eq_zero_of_le h, List.take_zero, List.append_nil]

/-- Claim C10: `AptAbsent.enforce` issues its remove command with a `sudo`
prefix exactly when the unit's `sudo` flag is `false`; the branch
assignment is the opposite of `AptPresent.enforce`, which prefixes `sudo`
exactly when its `sudo` flag is `true`. -/
theorem C10_apt_absent_sudo_inverted :
    (∀ u : AptAbsent, startsWithSudo (AptAbsent.enforceCommand u) = !u.useSudo) ∧
    (∀ u : AptPresent, startsWithSudo (AptPresent.enforceCommand u) = u.useSudo) := by
  constructor
  · rintro ⟨name, purge, su⟩
    cases su <;> cases purge <;>
      simp only [AptAbsent.enforceCommand, Bool.not_false, Bool.not_true,
        Bool.false_eq_true, if_true, if_false, Bool.true_eq_false, ite_false,
        ite_true] <;>
      rw [startsWithSudo_append _ _ (by decide)] <;> decide
  · rintro ⟨name, su⟩
    cases su <;>
      simp only [AptPresent.enforceCommand, Bool.false_eq_true,
        Bool.true_eq_false, if_true, if_false, ite_false, ite_true] <;>
      rw [startsWithSudo_append _ _ (by decide)] <;> decide

/-- Claim C7: `FileHash.apply` always fails with the unsupported-operation
error and issues no host operation whatsoever. -/
theorem C7_filehash_apply_always_fails (remote_path : String)
    (hash : String) (host : Host) :
    FileHash.apply remote_path hash host = (.error .notImplemented, []) :=
  rfl

/-- Claim C6: when the underlying `run` raises `NoSuchFileError`, the diff
enumeration routines return an empty result instead of propagating the
failure: `info_files_hash` yields the empty mapping and
`info_dirs_present` the empty list. -/
theorem C6_no_such_file_empty (m : DirectoryCopy) (host : Host) :
    (host.run m.files_command true true = .error .noSuchFile →
      m.info_files_hash host = .ok []) ∧
    (host.run m.dirs_command true true = .error .noSuchFile →
      m.info_dirs_present host = .ok []) := by
  constructor <;> intro h <;>
    simp [DirectoryCopy.info_files_hash, DirectoryCopy.info_dirs_present, h]

/-- A host on which every path is missing: every command reports
`NoSuchFileError`. -/
def missingHost : Host :=
  ⟨fun _ _ _ => .error .noSuchFile⟩

/-- Witness for C6 at a concrete synchronizer on `missingHost`. -/
theorem C6_no_such_file_empty_witness :
    DirectoryCopy.info_files_hash ⟨"/backup", "/srv"⟩ missingHost = .ok [] ∧
    DirectoryCopy.info_dirs_present ⟨"/backup", "/srv"⟩ missingHost = .ok [] :=
  ⟨(C6_no_such_file_empty ⟨"/backup", "/srv"⟩ missingHost).1 rfl,
    (C6_no_such_file_empty ⟨"/backup", "/srv"⟩ missingHost).2 rfl⟩

/-- Helper: taking at most the length of the left summand of an appended
string reads only the left summand. -/
theorem toList_take_append (n : Nat) (a s : String)
    (h : n ≤ a.toList.length) :
    (a ++ s).toList.take n = a.toList.take n := by
  have hd : (a ++ s).toList = a.toList ++ s.toList := String.data_append a s
  rw [hd, List.take_append_eq_append_take, Nat.sub_eq_zero_of_le h,
    List.take_zero, List.append_nil]

/-- Helper: an `ls -d` command is read-oriented and not write-class. -/
theorem ls_command_class (p : String) :
    (HostOp.run ("ls -d " ++ p)).isReadOnly = true ∧
    (HostOp.run ("ls -d " ++ p)).isWriteOp = false := by
  have h3 : ("ls -d " ++ p).toList.take 3 = ['l', 's', ' '] := by
    rw [toList_take_append 3 _ _ (by decide)]; decide
  have h6 : ("ls -d " ++ p).toList.take 6 = ['l', 's', ' ', '-', 'd', ' '] := by
    rw [toList_take_append 6 _ _ (by decide)]; decide
  constructor
  · simp [HostOp.isReadOnly, h3]
  · simp only [HostOp.isWriteOp]
    rw [h3, h6]
    decide

/-- Helper: a `sha256sum` command is read-oriented and not write-class. -/
theorem sha256sum_command_class (p : String) :
    (HostOp.run ("sha256sum " ++ p)).isReadOnly = true ∧
    (HostOp.run ("sha256sum " ++ p)).isWriteOp = false := by
  have h3 : ("sha256sum " ++ p).toList.take 3 = ['s', 'h', 'a'] := by
    rw [toList_take_append 3 _ _ (by decide)]; decide
  have h5 : ("sha256sum " ++ p).toList.take 5 = ['s', 'h', 'a', '2', '5'] := by
    rw [toList_take_append 5 _ _ (by decide)]; decide
  have h6 : ("sha256sum " ++ p).toList.take 6 =
      ['s', 'h', 'a', '2', '5', '6'] := by
    rw [toList_take_append 6 _ _ (by decide)]; decide
  have h10 : ("sha256sum " ++ p).toList.take 10 =
      ['s', 'h', 'a', '2', '5', '6', 's', 'u', 'm', ' '] := by
    rw [toList_take_append 10 _ _ (by decide)]; decide
  constructor
  · simp only [HostOp.isReadOnly]
    rw [h3, h5, h10]
    decide
  · simp only [HostOp.isWriteOp]
    rw [h3, h6]
    decide

/-- Claim C9: the `check` of `FilePresent`, `FileHash`, `FileCopy` and
`DirectoryPresent` issues only read-oriented commands (`ls`, `sha256sum`)
and never a `put`, `touch`, `rm`, `mkdir` or `rmdir`; a `FileCopy`
constructed with a truthy (non-empty) `remote_hash` issues no host
operation at all and reports whether the local file's hash equals that
`remote_hash`. -/
theorem C9_check_read_only :
    (∀ (p : String) (host : Host), ∀ op ∈ (FilePresent.check p host).2,
      op.isReadOnly = true ∧ op.isWriteOp = false) ∧
    (∀ (p hash : String) (host : Host),
      ∀ op ∈ (FileHash.check p hash host).2,
      op.isReadOnly = true ∧ op.isWriteOp = false) ∧
    (∀ (rp lp : String) (rh : Option String) (lf : String → String)
      (host : Host), ∀ op ∈ (FileCopy.check rp lp rh lf host).2,
      op.isReadOnly = true ∧ op.isWriteOp = false) ∧
    (∀ (p : String) (host : Host),
      ∀ op ∈ (DirectoryPresent.check p host).2,
      op.isReadOnly = true ∧ op.isWriteOp = false) ∧
    (∀ (rp lp : String) (rh : Option String) (lf : String → String)
      (host : Host), pyTruthy rh = true →
      (FileCopy.check rp lp rh lf host).2 = [] ∧
      (FileCopy.check rp lp rh lf host).1 = .ok (some (lf lp) == rh)) := by
  refine ⟨?_, ?_, ?_, ?_, ?_⟩
  · intro p host op hop
    simp [FilePresent.check] at hop
    subst hop
    exact ls_command_class p
  · intro p hash host op hop
    simp [FileHash.check, FileHash.get_hash] at hop
    subst hop
    exact sha256sum_command_class p
  · intro rp lp rh lf host op hop
    by_cases h : pyTruthy rh = true
    · simp [FileCopy.check, h] at hop
    · have h2 : pyTruthy rh = false := by simpa using h
      simp [FileCopy.check, h2, FileHash.check, FileHash.get_hash] at hop
      subst hop
      exact sha256sum_command_class rp
  · intro p host op hop
    simp [DirectoryPresent.check] at hop
    subst hop
    exact ls_command_class p
  · intro rp lp rh lf host h
    simp [FileCopy.check, h]

/-- A host on which every command succeeds with empty output. -/
def quietHost : Host :=
  ⟨fun _ _ _ => .ok ""⟩

/-- Witness for C9: concrete instances of each conjunct, the memberships
and the truthiness discharged at concrete inputs. -/
theorem C9_check_read_only_witness :
    ((HostOp.run ("ls -d " ++ "/etc/motd")).isReadOnly = true ∧
      (HostOp.run ("ls -d " ++ "/etc/motd")).isWriteOp = false) ∧
    ((HostOp.run ("sha256sum " ++ "/etc/motd")).isReadOnly = true ∧
      (HostOp.run ("sha256sum " ++ "/etc/motd")).isWriteOp = false) ∧
    ((FileCopy.check "/r/f" "/l/f" (some "abc") (fun _ => "abc")
        quietHost).2 = [] ∧
      (FileCopy.check "/r/f" "/l/f" (some "abc") (fun _ => "abc")
        quietHost).1 = .ok (some ((fun _ => "abc") "/l/f") == some "abc")) :=
  ⟨C9_check_read_only.1 "/etc/motd" quietHost _ (by simp [FilePresent.check]),
    C9_check_read_only.2.1 "/etc/motd" "h" quietHost _
      (by simp [FileHash.check, FileHash.get_hash]),
    C9_check_read_only.2.2.2.2 "/r/f" "/l/f" (some "abc") (fun _ => "abc")
      quietHost (by decide)⟩

/-- Helper: under the local-root prefix invariant, the `os.walk` loop
yields exactly the spec-side creation lists, in walk order. -/
theorem walkUnits_eq (m : DirectoryCopy) (ef : List (String × String))
    (walk : List (String × List String × List String))
    (h : ∀ e ∈ walk, pyStartsWith e.1 m.local_path = true) :
    DirectoryCopy.walkUnits m ef walk =
      .ok (specDirsToCreate m walk, specFilesToCopy m ef walk) := by
  induction walk with
  | nil =>
      simp [DirectoryCopy.walkUnits, specDirsToCreate, specFilesToCopy]
  | cons e rest ih =>
      obtain ⟨root, dirs, files⟩ := e
      have h1 : pyStartsWith root m.local_path = true :=
        h _ (List.mem_cons_self _ _)
      have ihe := ih (fun e he => h e (List.mem_cons_of_mem _ he))
      simp [DirectoryCopy.walkUnits, DirectoryCopy.get_remote_path, h1, ihe,
        specDirsToCreate, specFilesToCopy]

/-- Helper: under the remote-root prefix invariant, the file-removal loop
yields exactly the spec-side file-absent list. -/
theorem removalFileUnits_eq (m : DirectoryCopy) (isfile : String → Bool)
    (ef : List (String × String))
    (h : ∀ kv ∈ ef, pyStartsWith kv.1 m.remote_path = true) :
    DirectoryCopy.removalFileUnits m isfile ef =
      .ok (specFilesToRemove m isfile ef) := by
  induction ef with
  | nil => simp [DirectoryCopy.removalFileUnits, specFilesToRemove]
  | cons kv rest ih =>
      obtain ⟨fp, hv⟩ := kv
      have h1 : pyStartsWith fp m.remote_path = true :=
        h _ (List.mem_cons_self _ _)
      have ihe := ih (fun kv hk => h kv (List.mem_cons_of_mem _ hk))
      cases hif : isfile (m.localOfRemote fp) <;>
        simp [DirectoryCopy.removalFileUnits, DirectoryCopy.get_local_path,
          h1, ihe, specFilesToRemove, hif]

/-- Helper: under the remote-root prefix invariant, the directory-removal
loop yields exactly the spec-side directory-absent list. -/
theorem removalDirUnits_eq (m : DirectoryCopy) (isdir : String → Bool)
    (ed : List String)
    (h : ∀ d ∈ ed, pyStartsWith d m.remote_path = true) :
    DirectoryCopy.removalDirUnits m isdir ed =
      .ok (specDirsToRemove m isdir ed) := by
  induction ed with
  | nil => simp [DirectoryCopy.removalDirUnits, specDirsToRemove]
  | cons d rest ih =>
      have h1 : pyStartsWith d m.remote_path = true :=
        h _ (List.mem_cons_self _ _)
      have ihe := ih (fun d hd => h d (List.mem_cons_of_mem _ hd))
      cases hid : isdir (m.localOfRemote d) <;>
        simp [DirectoryCopy.removalDirUnits, DirectoryCopy.get_local_path,
          h1, ihe, specDirsToRemove, hid]

/-- Claim C2: for every local tree and remote enumeration result (under
the path-prefix invariants the enumeration sources guarantee),
`DirectoryCopy.submodules` returns the pair of two-stage plans: the
creation plan is `[directory-present units for every local directory,
file-copy units for every local file]` and the removal plan is
`[file-absent units for every remote file with no corresponding local
file, directory-absent units for every remote directory with no
corresponding local directory]`; within each plan the directory-creation
stage precedes the file-creation stage and the file-removal stage precedes
the directory-removal stage. -/
theorem C2_submodules_two_stage_plans (m : DirectoryCopy) (host : Host)
    (fs : LocalFS) (ef : List (String × String)) (ed : List String)
    (hef : m.info_files_hash host = .ok ef)
    (hed : m.info_dirs_present host = .ok ed)
    (hw : ∀ e ∈ fs.walk, pyStartsWith e.1 m.local_path = true)
    (hf : ∀ kv ∈ ef, pyStartsWith kv.1 m.remote_path = true)
    (hd : ∀ d ∈ ed, pyStartsWith d m.remote_path = true) :
    m.submodules host fs =
      .ok ([specDirsToCreate m fs.walk, specFilesToCopy m ef fs.walk],
        [specFilesToRemove m fs.isfile ef, specDirsToRemove m fs.isdir ed]) := by
  simp [DirectoryCopy.submodules, hef, hed, walkUnits_eq m ef fs.walk hw,
    removalFileUnits_eq m fs.isfile ef hf, removalDirUnits_eq m fs.isdir ed hd]

/-- Host for the C2 witness: the remote tree holds one stale file
`/remote/b/g.txt` (fingerprint `h1`) and directories `/remote` and
`/remote/c`. -/
def diffHost : Host :=
  ⟨fun c _ _ =>
    if c == "find /remote -type f -exec sha256sum \x7b\x7d +" then
      .ok "h1 /remote/b/g.txt"
    else if c == "find /remote -type d" then
      .ok "/remote\n/remote/c"
    else .error .processError⟩

/-- Local tree for the C2 witness: `/local` holds directory `a` and file
`a/f.txt`; nothing else exists locally. -/
def diffLocalFS : LocalFS where
  walk := [("/local", ["a"], []), ("/local/a", [], ["f.txt"])]
  isfile := fun p => p == "/local/a/f.txt"
  isdir := fun p => p == "/local/" || p == "/local/a"

/-- Witness for C2 on the concrete diff: creation plan
`[[DirectoryPresent /remote/a], [FileCopy /remote/a/f.txt]]`, removal plan
`[[FileAbsent /remote/b/g.txt], [DirectoryAbsent /remote/c]]`. -/
theorem C2_submodules_two_stage_plans_witness :
    DirectoryCopy.submodules ⟨"/remote", "/local"⟩ diffHost diffLocalFS =
      .ok ([[Module.DirectoryPresent "/remote/a"],
            [Module.FileCopy "/remote/a/f.txt" "/local/a/f.txt" none]],
           [[Module.FileAbsent "/remote/b/g.txt"],
            [Module.DirectoryAbsent "/remote/c"]]) := by
  have h := C2_submodules_two_stage_plans ⟨"/remote", "/local"⟩ diffHost
    diffLocalFS [("/remote/b/g.txt", "h1")] ["/remote", "/remote/c"]
    rfl rfl (by decide) (by decide) (by decide)
  rw [h]
  rfl

end Okonf
